import Mathlib

/-!
Verification of the mqtt_push acquisition-and-publish pipeline.

JavaScript strings are modelled as lists of UTF-16 code units (`JStr`),
JavaScript numbers as rationals, and absent (`undefined`/`null`) fields as
`Option`.  Wall-clock timestamps (`processed_at`, `timestamp` fields) are not
modelled; they never influence control flow.
-/

/-- A JavaScript string, as its sequence of UTF-16 code units. -/
abbrev JStr := List Nat

/-- A JavaScript value as seen by `SensorProcessor.parseNumber`: `null` or
`undefined`, a finite number, the number `NaN`, the empty string, a string
whose `parseFloat` yields a finite number, or a string whose `parseFloat`
yields `NaN`. -/
inductive JVal where
  | jnull
  | jundefined
  | jnum (q : Rat)
  | jnan
  | jstrEmpty
  | jstrNum (q : Rat)
  | jstrNaN
deriving DecidableEq, Repr

namespace SensorProcessor

/-- Model of `parseNumber` (sensorProcessor.js): `null`, `undefined` and `''` map to
`null`; otherwise `parseFloat`, with `NaN` mapped to `null`. -/
def parseNumber : JVal → Option Rat
  | .jnull => none
  | .jundefined => none
  | .jstrEmpty => none
  | .jnum q => some q
  | .jnan => none
  | .jstrNum q => some q
  | .jstrNaN => none

/-- Model of `validateRange` (sensorProcessor.js): `false` when either bound is
`null`, otherwise `min < max`. -/
def validateRange (min max : Option Rat) : Bool :=
  match min, max with
  | some a, some b => decide (a < b)
  | _, _ => false

/-- Is `c` one of the code units matched by `[0-9a-fA-F]`? -/
def isHexDigit (c : Nat) : Bool :=
  (48 ≤ c && c ≤ 57) || (65 ≤ c && c ≤ 70) || (97 ≤ c && c ≤ 102)

/-- Numeric value of a hex digit code unit. -/
def hexVal (c : Nat) : Nat :=
  if c ≤ 57 then c - 48 else if c ≤ 70 then c - 55 else c - 87

/-- Does the string start with a match of `\\x[0-9a-fA-F]{2}`?
(92 is `\`, 120 is `x`.) -/
def isEscapeAt : JStr → Bool
  | 92 :: 120 :: h1 :: h2 :: _ => isHexDigit h1 && isHexDigit h2
  | _ => false

/-- Model of `/\\x[0-9a-fA-F]{2}/.test(s)`: some suffix starts with the escape
pattern. -/
def hasEscapePattern (s : JStr) : Bool :=
  s.tails.any isEscapeAt

/-- The global replace `s.replace(/\\x([0-9a-fA-F]{2})/g, fromCharCode)`:
left-to-right, non-overlapping; a match consumes four code units and emits
the byte value, a non-match emits one code unit and moves on. -/
def replaceEscapes : JStr → JStr
  | c1 :: c2 :: c3 :: c4 :: rest =>
      if c1 = 92 && c2 = 120 && isHexDigit c3 && isHexDigit c4 then
        (16 * hexVal c3 + hexVal c4) :: replaceEscapes rest
      else
        c1 :: replaceEscapes (c2 :: c3 :: c4 :: rest)
  | c :: rest => c :: replaceEscapes rest
  | [] => []

/-- Model of `Buffer.from(s, 'latin1')`: each UTF-16 code unit is truncated to its
low byte. -/
def latin1Bytes (s : JStr) : List Nat :=
  s.map (· % 256)

/-- One step of WHATWG UTF-8 decoding (the semantics of
`buffer.toString('utf8')`): given the lead byte and the remaining bytes,
produce one code point (65533 = U+FFFD on error) and the bytes not yet
consumed. -/
def utf8Step (b : Nat) (rest : List Nat) : Nat × List Nat :=
  if b < 128 then (b, rest)
  else if 194 ≤ b && b ≤ 223 then
    match rest with
    | b2 :: r2 =>
      if 128 ≤ b2 && b2 ≤ 191 then (64 * (b - 192) + (b2 - 128), r2)
      else (65533, b2 :: r2)
    | [] => (65533, [])
  else if 224 ≤ b && b ≤ 239 then
    match rest with
    | b2 :: r2 =>
      if (if b = 224 then 160 ≤ b2 && b2 ≤ 191
          else if b = 237 then 128 ≤ b2 && b2 ≤ 159
          else 128 ≤ b2 && b2 ≤ 191) then
        match r2 with
        | b3 :: r3 =>
          if 128 ≤ b3 && b3 ≤ 191 then
            (4096 * (b - 224) + 64 * (b2 - 128) + (b3 - 128), r3)
          else (65533, b3 :: r3)
        | [] => (65533, [])
      else (65533, b2 :: r2)
    | [] => (65533, [])
  else if 240 ≤ b && b ≤ 244 then
    match rest with
    | b2 :: r2 =>
      if (if b = 240 then 144 ≤ b2 && b2 ≤ 191
          else if b = 244 then 128 ≤ b2 && b2 ≤ 143
          else 128 ≤ b2 && b2 ≤ 191) then
        match r2 with
        | b3 :: r3 =>
          if 128 ≤ b3 && b3 ≤ 191 then
            match r3 with
            | b4 :: r4 =>
              if 128 ≤ b4 && b4 ≤ 191 then
                (262144 * (b - 240) + 4096 * (b2 - 128) + 64 * (b3 - 128)
                  + (b4 - 128), r4)
              else (65533, b4 :: r4)
            | [] => (65533, [])
          else (65533, b3 :: r3)
        | [] => (65533, [])
      else (65533, b2 :: r2)
    | [] => (65533, [])
  else (65533, rest)

/-- Fuelled UTF-8 decoding loop; each step consumes at least one byte, so a
fuel equal to the byte count always suffices. -/
def utf8DecodeFuel : Nat → List Nat → List Nat
  | 0, _ => []
  | _ + 1, [] => []
  | fuel + 1, b :: rest =>
      let st := utf8Step b rest
      st.1 :: utf8DecodeFuel fuel st.2

/-- Model of `buffer.toString('utf8')` as a sequence of code points. -/
def utf8Decode (bs : List Nat) : List Nat :=
  utf8DecodeFuel bs.length bs

/-- Re-encode code points as UTF-16 code units (JavaScript string
representation); code points above U+FFFF become surrogate pairs. -/
def utf16Encode : List Nat → JStr
  | [] => []
  | cp :: rest =>
      (if cp < 65536 then [cp]
       else [55296 + (cp - 65536) / 1024, 56320 + (cp - 65536) % 1024])
        ++ utf16Encode rest

/-- Model of `decodeUTF8` (sensorProcessor.js): falsy input yields `''`; a string
without the `\xHH` escape pattern is returned unchanged; otherwise each
escape is replaced by its byte, the result is read as latin1 bytes and
re-interpreted as UTF-8. -/
def decodeUTF8 (s : JStr) : JStr :=
  if s = [] then []
  else if hasEscapePattern s = false then s
  else utf16Encode (utf8Decode (latin1Bytes (replaceEscapes s)))

/-- Model of `this.sensorTypes` (sensorProcessor.js constructor): the processor's own
six-entry code → name map, keyed by the code's single UTF-16 unit. -/
def sensorTypes : List (Nat × JStr) :=
  [ (65, [28331, 24230])                  -- 'A' → 溫度
  , (66, [28629, 24230])                  -- 'B' → 濕度
  , (67, [20108, 27687, 21270, 30899])    -- 'C' → 二氧化碳
  , (83, [36000, 22739])                  -- 'S' → 負壓
  , (82, [39080, 36895])                  -- 'R' → 風速
  , (76, [39154, 29992, 27700, 37327]) ]  -- 'L' → 飲用水量

/-- The default `'未知類型'` ("unknown type"). -/
def unknownType : JStr := [26410, 30693, 39006, 22411]

/-- Lookup `this.sensorTypes[value.code]` where an absent code indexes nothing. -/
def sensorTypesLookup : Option Nat → Option JStr
  | some c => sensorTypes.lookup c
  | none => none

/-- One element of a raw reading's `value` array, as the source accesses
it: `_id` (kept as `id`), `name`, `max`, `min`, `code` (a one-character
code, absent allowed), `calc`. -/
structure RawValue where
  id : Option JStr
  name : Option JStr
  max : JVal
  min : JVal
  code : Option Nat
  calcExpr : Option JStr   -- the source's `calc` field (`calc` is reserved here)
deriving DecidableEq, Repr

/-- The object built inside `processValueArray`'s map, including the
`range_valid` flag added afterwards. -/
structure ProcessedValue where
  id : Option JStr
  name : JStr
  max : Option Rat
  min : Option Rat
  code : Option Nat
  calcExpr : Option JStr   -- the source's `calc` field (`calc` is reserved here)
  type : JStr
  range_valid : Bool
deriving DecidableEq, Repr

/-- The body of `processValueArray`'s map: decode the name, parse the
bounds, look up the type (default `'未知類型'`), then validate the range.
`value.calc || null` maps a falsy (absent or empty) `calc` to `null`. -/
def processValue (v : RawValue) : ProcessedValue :=
  let mn := parseNumber v.min
  let mx := parseNumber v.max
  { id := v.id
  , name := decodeUTF8 (v.name.getD [])
  , max := mx
  , min := mn
  , code := v.code
  , calcExpr := match v.calcExpr with
                | some s => if s = [] then none else some s
                | none => none
  , type := (sensorTypesLookup v.code).getD unknownType
  , range_valid := validateRange mn mx }

/-- Model of `processValueArray` (sensorProcessor.js): a non-array input becomes
`[]`; otherwise each entry is processed (the per-entry try/catch is
unreachable in this pure model). -/
def processValueArray (vs : List RawValue) : List ProcessedValue :=
  vs.map processValue

/-- The status vocabulary of `determineSensorStatus`; the `error` value is
only produced by its catch clause. -/
inductive SensorStatus where
  | no_values
  | invalid_range
  | incomplete_info
  | active
  | error
deriving DecidableEq, Repr

/-- Model of `determineSensorStatus` (sensorProcessor.js): empty value list →
`no_values`; no value with a valid range → `invalid_range`; empty `name`
or `DES` → `incomplete_info`; otherwise `active`. -/
def determineSensorStatus (value : List ProcessedValue) (name DES : JStr) :
    SensorStatus :=
  if value.length = 0 then .no_values
  else if (value.filter (fun v => v.range_valid)).length = 0 then
    .invalid_range
  else if name = [] || DES = [] then .incomplete_info
  else .active

/-- A raw reading as read from the store; every field the source accesses,
with `Option` for possibly-absent fields.  `ADDRESS` is numeric. -/
structure RawSensor where
  SN : Option JStr
  DES : Option JStr
  ADDRESS : Option Int
  name : Option JStr
  profile : Option JStr
  value : Option (List RawValue)
deriving DecidableEq, Repr

/-- JavaScript truthiness of an optional string: present and non-empty. -/
def truthyStr : Option JStr → Bool
  | some s => !s.isEmpty
  | none => false

/-- JavaScript truthiness of an optional number: present and non-zero. -/
def truthyInt : Option Int → Bool
  | some a => a != 0
  | none => false

/-- The decoded sensor built by `processSingleSensor` (the wall-clock
`processed_at` field is not modelled). -/
structure ProcessedSensor where
  SN : JStr
  DES : JStr
  ADDRESS : Int
  name : JStr
  profile : JStr
  value : List ProcessedValue
  status : SensorStatus
deriving DecidableEq, Repr

/-- Model of `processSingleSensor` (sensorProcessor.js): `null` when
`!sensor.SN || !sensor.ADDRESS` (JavaScript truthiness); otherwise decode
the text fields, process the value array, and attach the status. -/
def processSingleSensor (sensor : RawSensor) : Option ProcessedSensor :=
  if !(truthyStr sensor.SN && truthyInt sensor.ADDRESS) then none
  else
    let value := processValueArray (sensor.value.getD [])
    let name := decodeUTF8 (sensor.name.getD [])
    let DES := decodeUTF8 (sensor.DES.getD [])
    some
      { SN := sensor.SN.getD []
      , DES := DES
      , ADDRESS := sensor.ADDRESS.getD 0
      , name := name
      , profile := sensor.profile.getD []
      , value := value
      , status := determineSensorStatus value name DES }

/-- Model of `processSensorData` (sensorProcessor.js): map `processSingleSensor`
over the array and drop the `null`s. -/
def processSensorData (sensorDataArray : List RawSensor) :
    List ProcessedSensor :=
  sensorDataArray.filterMap processSingleSensor

/-- The `device_info` block of `formatForMqtt`. -/
structure DeviceInfo where
  serial_number : JStr
  description : JStr
  address : Int
  name : JStr
  status : SensorStatus
deriving DecidableEq, Repr

/-- The `range` block of a formatted sensor value. -/
structure RangeOut where
  min : Option Rat
  max : Option Rat
  valid : Bool
deriving DecidableEq, Repr

/-- One element of `sensor_values` in `formatForMqtt`'s output. -/
structure SensorValueOut where
  id : Option JStr
  name : JStr
  type : JStr
  code : Option Nat
  range : RangeOut
  calculation : Option JStr
deriving DecidableEq, Repr

/-- Output shape of `formatForMqtt` (`metadata.processed_at` is wall-clock
and not modelled; `metadata.total_sensors` is kept). -/
structure FormattedSensor where
  device_info : DeviceInfo
  sensor_values : List SensorValueOut
  profile : JStr
  total_sensors : Nat
deriving DecidableEq, Repr

/-- Model of `formatForMqtt` (sensorProcessor.js): reshape a processed sensor into
the publish-ready wire shape. -/
def formatForMqtt (sensor : ProcessedSensor) : FormattedSensor :=
  { device_info :=
      { serial_number := sensor.SN
      , description := sensor.DES
      , address := sensor.ADDRESS
      , name := sensor.name
      , status := sensor.status }
  , sensor_values :=
      sensor.value.map (fun value =>
        { id := value.id
        , name := value.name
        , type := value.type
        , code := value.code
        , range := { min := value.min, max := value.max
                   , valid := value.range_valid }
        , calculation := value.calcExpr })
  , profile := sensor.profile
  , total_sensors := sensor.value.length }

/-- Model of `processAndFormat` (sensorProcessor.js): process, then format each
survivor. -/
def processAndFormat (sensorDataArray : List RawSensor) :
    List FormattedSensor :=
  (processSensorData sensorDataArray).map formatForMqtt

end SensorProcessor

namespace UnitCatalog

/-- The `unit` table of utils/unit.js, as (one-character code, name) pairs
in source order (the `unit` and `img` presentation fields are not needed by
any claim). -/
def unit : List (Nat × JStr) :=
  [ (66, [28629, 24230])                         -- 'B' 濕度
  , (67, [20108, 27687, 21270, 30899])           -- 'C' 二氧化碳
  , (68, [27688, 27683, 28611, 24230])           -- 'D' 氨氣濃度
  , (69, [80, 77, 32, 49, 46, 48])               -- 'E' PM 1.0
  , (70, [80, 77, 32, 50, 46, 53])               -- 'F' PM 2.5
  , (71, [80, 77, 49, 48])                       -- 'G' PM10
  , (65, [28331, 24230])                         -- 'A' 溫度
  , (72, [30827, 21270, 27691, 28611, 24230])    -- 'H' 硫化氫濃度
  , (73, [29031, 24230])                         -- 'I' 照度
  , (74, [27687, 27683, 28611, 24230])           -- 'J' 氧氣濃度
  , (75, [39164, 26009, 20379, 32102, 37327])    -- 'K' 飼料供給量
  , (76, [39154, 29992, 27700, 37327])           -- 'L' 飲用水量
  , (77, [28082, 20301])                         -- 'M' 液位
  , (78, [27700, 20301, 29376, 24907])           -- 'N' 水位狀態
  , (79, [21363, 26178, 37325, 37327])           -- 'O' 即時重量
  , (80, [30636, 38291, 21151, 29575])           -- 'P' 瞬間功率
  , (81, [37325, 37327])                         -- 'Q' 重量
  , (82, [39080, 36895])                         -- 'R' 風速
  , (83, [36000, 22739])                         -- 'S' 負壓
  , (57, [34395, 25836])                         -- '9' 虛擬
  , (84, [38283, 38364, 37327])                  -- 'T' 開關量
  , (88, [38651, 27969])                         -- 'X' 電流
  , (87, [38651, 22739])                         -- 'W' 電壓
  , (90, [24230])                                -- 'Z' 度
  , (89, [21363, 26178, 21151, 29575])           -- 'Y' 即時功率
  , (85, [21151, 29575, 22240, 25976])           -- 'U' 功率因數
  , (86, [39080, 21521])                         -- 'V' 風向
  , (97, [32043, 22806, 32218, 24375, 24230])    -- 'a' 紫外線強度
  , (98, [20809, 37327, 23376])                  -- 'b' 光量子
  , (99, [38632, 28404, 24863, 30693])           -- 'c' 雨滴感知
  , (100, [38651, 23566, 24230])                 -- 'd' 電導度
  , (101, [80, 72])                              -- 'e' PH
  , (102, [27700, 27963, 24615])                 -- 'f' 水活性
  , (103, [30064, 24120, 20540]) ]               -- 'g' 異常值

/-- Model of `getUnitByCode` (utils/unit.js): `unit.find(u => u.code === code) ||
null`. -/
def getUnitByCode (code : Nat) : Option (Nat × JStr) :=
  unit.find? (fun u => u.1 == code)

end UnitCatalog

namespace MqttService

/-- The topic `DEVICE_TOPIC_PREFIX + '/' + deviceName + '/seninf'`
(47 is `/`). -/
def seninfTopic (pfx deviceName : JStr) : JStr :=
  pfx ++ [47] ++ deviceName ++ [47] ++ [115, 101, 110, 105, 110, 102]

/-- String `'device_undefined'`: in `publishBatchSensorData`
(src/services/mqttService.js) the items are `formatForMqtt` outputs, which
carry no top-level `SN` or `ADDRESS` property, so
`sensorData.SN || 'device_' + sensorData.ADDRESS` evaluates to the string
`'device_undefined'`. -/
def deviceUndefined : JStr :=
  [100, 101, 118, 105, 99, 101, 95, 117, 110, 100, 101, 102, 105, 110,
   101, 100]

/-- The device name `publishBatchSensorData` resolves for one item:
`sensorData.SN || 'device_' + sensorData.ADDRESS` evaluated on an object
with optional `SN`/`ADDRESS` string properties.  The pipeline passes
formatted objects, on which both properties are `undefined`. -/
def batchItemDeviceName (SN ADDRESS : Option JStr) : JStr :=
  match SN with
  | some s => if s ≠ [] then s else deviceUndefinedFallback ADDRESS
  | none => deviceUndefinedFallback ADDRESS
where
  /-- String `'device_' + ADDRESS`, where an absent `ADDRESS` prints as
  `undefined`. -/
  deviceUndefinedFallback : Option JStr → JStr
  | some a => [100, 101, 118, 105, 99, 101, 95] ++ a
  | none => deviceUndefined

/-- Model of `publishBatchSensorData` (src/services/mqttService.js lines 138-168):
one `publishSensorData` call per element of the array, each to the topic
`prefix/deviceName/seninf`; `formatForMqtt` outputs have no `SN`/`ADDRESS`
property, so every call resolves the name `'device_undefined'`.  The result
is the list of publish calls made (topic, payload). -/
def publishBatchSensorData (pfx : JStr)
    (sensorDataArray : List SensorProcessor.FormattedSensor) :
    List (JStr × SensorProcessor.FormattedSensor) :=
  sensorDataArray.map (fun sensorData =>
    (seninfTopic pfx (batchItemDeviceName none none), sensorData))

/-- The merged envelope built by `publishBatchSensorDataWithDeviceName`
(the dual-reconnect variant, lines 204-252): device metadata plus the
ordered list of all readings. -/
structure DeviceEnvelope where
  device_name : JStr
  total_sensors : Nat
  sensors : List SensorProcessor.FormattedSensor
deriving DecidableEq, Repr

/-- Model of `publishBatchSensorDataWithDeviceName` (the dual-reconnect variant):
merges the whole array into a single envelope and performs exactly one
publish to `prefix/deviceName/seninf`. -/
def publishBatchSensorDataWithDeviceName (pfx deviceName : JStr)
    (sensorDataArray : List SensorProcessor.FormattedSensor) :
    List (JStr × DeviceEnvelope) :=
  [ (seninfTopic pfx deviceName,
     { device_name := deviceName
     , total_sensors := sensorDataArray.length
     , sensors := sensorDataArray }) ]

end MqttService

namespace RedisService

/-- The fields of the `options` object handed to `retry_strategy`
(redisService.js lines 21-36): `options.error && options.error.code`
(as an optional code string), `options.total_retry_time` (milliseconds)
and `options.attempt`. -/
structure RetryOptions where
  errCode : Option JStr
  total_retry_time : Nat
  attempt : Nat
deriving DecidableEq, Repr

/-- What `retry_strategy` returns: an `Error` object (stops retrying and
surfaces that error), `undefined` (stops retrying), or a delay in
milliseconds before the next attempt. -/
inductive RetryDecision where
  | haltWithError
  | haltUndefined
  | retryAfter (ms : Nat)
deriving DecidableEq, Repr

/-- String `'ECONNREFUSED'`. -/
def econnrefused : JStr :=
  [69, 67, 79, 78, 78, 82, 69, 70, 85, 83, 69, 68]

/-- Model of `retry_strategy` (redisService.js): `Error` on `ECONNREFUSED`; `Error`
once `total_retry_time > 1000 * 60 * 60`; `undefined` once `attempt > 10`;
otherwise the delay `Math.min(attempt * 100, 3000)`. -/
def retry_strategy (options : RetryOptions) : RetryDecision :=
  if options.errCode = some econnrefused then .haltWithError
  else if 1000 * 60 * 60 < options.total_retry_time then .haltWithError
  else if 10 < options.attempt then .haltUndefined
  else .retryAfter (min (options.attempt * 100) 3000)

/-- A decision halts (stops retrying) rather than scheduling another
attempt. -/
def RetryDecision.halts : RetryDecision → Bool
  | .haltWithError => true
  | .haltUndefined => true
  | .retryAfter _ => false

end RedisService

namespace MqttPushService

/-- The mutable counters of `this.stats` (src/index.js constructor);
`startTime` is wall-clock and never read by control flow, so it is not
modelled; `lastPublishTime` is the abstract time at which `updateStats`
last ran. -/
structure Stats where
  totalPublished : Nat
  lastPublishTime : Option Nat
  errors : Nat
deriving DecidableEq, Repr

/-- The external world one poll cycle observes: the two readiness
projections, the outcome of the Redis read, the per-publish acknowledgement
outcomes (indexed by position in the batch), the configured topic prefix,
and the abstract current time. -/
structure Env where
  redisReady : Bool
  mqttReady : Bool
  sensorRead : Except Unit (List SensorProcessor.RawSensor)
  pubOk : Nat → Bool
  topicPrefix : JStr
  now : Nat

/-- Model of `updateStats` (src/index.js lines 463-475): add the attempted count to
`totalPublished`, stamp `lastPublishTime`, and add the number of failed
results to `errors` (only when there were failures). -/
def updateStats (stats : Stats) (now publishedCount : Nat)
    (results : List Bool) : Stats :=
  let failedCount := (results.filter (fun r => !r)).length
  { totalPublished := stats.totalPublished + publishedCount
  , lastPublishTime := some now
  , errors := if 0 < failedCount then stats.errors + failedCount
              else stats.errors }

/-- What one run of `processSensorData` (src/index.js lines 408-456) did:
the stats afterwards, how many `client.publish` calls were made, and
whether the function rethrew to its caller. -/
structure CycleResult where
  stats : Stats
  publishCalls : Nat
  threw : Bool
deriving Repr

/-- The settled outcome of each publish in the batch: in
`publishBatchSensorData` every per-device promise carries a `.catch`, so
`Promise.allSettled` yields one fulfilled result per call, successful
exactly when the broker acknowledged it. -/
def runBatchPublish (pubOk : Nat → Bool) (n : Nat) : List Bool :=
  (List.range n).map pubOk

/-- Model of `processSensorData` (src/index.js): return unchanged if not running or
if either backend is not ready; rethrow (after counting the error) if the
Redis read throws; return unchanged on an empty read or an empty processed
batch; otherwise publish the batch and update the stats. -/
def processSensorData (env : Env) (isRunning : Bool) (stats : Stats) :
    CycleResult :=
  if isRunning = false then ⟨stats, 0, false⟩
  else if env.redisReady = false then ⟨stats, 0, false⟩
  else if env.mqttReady = false then ⟨stats, 0, false⟩
  else
    match env.sensorRead with
    | .error _ => ⟨{ stats with errors := stats.errors + 1 }, 0, true⟩
    | .ok rawSensorData =>
      if rawSensorData.isEmpty then ⟨stats, 0, false⟩
      else
        let processedData := SensorProcessor.processAndFormat rawSensorData
        if processedData.isEmpty then ⟨stats, 0, false⟩
        else
          let calls :=
            MqttService.publishBatchSensorData env.topicPrefix processedData
          let results := runBatchPublish env.pubOk calls.length
          ⟨updateStats stats env.now processedData.length results,
           calls.length, false⟩

/-- The body of the `setInterval` handler installed by `startPolling`
(src/index.js lines 391-403): run `processSensorData`, and if it threw,
catch at the cycle boundary, count the error, and return normally. -/
def pollTick (env : Env) (isRunning : Bool) (stats : Stats) : Stats :=
  let r := processSensorData env isRunning stats
  if r.threw then { r.stats with errors := r.stats.errors + 1 } else r.stats

/-- The scheduler: each timer tick runs the guarded handler on the stats
left by the previous tick; a tick never aborts the remaining ticks. -/
def runTicks (envs : List Env) (isRunning : Bool) (stats : Stats) : Stats :=
  match envs with
  | [] => stats
  | e :: es => runTicks es isRunning (pollTick e isRunning stats)

end MqttPushService

/-! Concrete inputs used by counterexamples and witnesses. -/

/-- All counters zero, no publish yet. -/
def stats0 : MqttPushService.Stats :=
  { totalPublished := 0, lastPublishTime := none, errors := 0 }

/-- A well-formed raw reading of device `"S1"` with no values. -/
def rawS1 (addr : Int) : SensorProcessor.RawSensor :=
  { SN := some [83, 49], DES := some [100], ADDRESS := some addr
  , name := some [110], profile := none, value := some [] }

/-- A cycle environment holding two readings of the single device `"S1"`,
with both backends ready and every publish acknowledged. -/
def envTwoReadings : MqttPushService.Env :=
  { redisReady := true, mqttReady := true
  , sensorRead := .ok [rawS1 1, rawS1 2]
  , pubOk := fun _ => true, topicPrefix := [112], now := 0 }

/-- A raw reading whose `SN` is the non-empty string `"S1"` and whose
`ADDRESS` is the number `0`. -/
def sensorAddr0 : SensorProcessor.RawSensor :=
  { SN := some [83, 49], DES := some [100], ADDRESS := some 0
  , name := some [110], profile := none, value := some [] }

/-- A raw value spec whose `code` is `'I'` (code unit 73). -/
def valueCodeI : SensorProcessor.RawValue :=
  { id := none, name := none, max := .jnull, min := .jnull
  , code := some 73, calcExpr := none }

/-- The string `"\x5Cx41"`: backslash, `x`, `5`, `C`, `x`, `4`, `1`. -/
def cex5 : JStr := [92, 120, 53, 67, 120, 52, 49]

/-- A sensor accepted by `processSingleSensor`. -/
def wSensor : SensorProcessor.RawSensor :=
  { SN := some [83], DES := some [98], ADDRESS := some 1
  , name := some [97], profile := none, value := some [] }

/-- The processed form of `wSensor`. -/
def wPS : SensorProcessor.ProcessedSensor :=
  { SN := [83], DES := [98], ADDRESS := 1, name := [97], profile := []
  , value := [], status := .no_values }

/-- A cycle environment whose store connection reports not-ready. -/
def envNotReady : MqttPushService.Env :=
  { redisReady := false, mqttReady := true, sensorRead := .ok []
  , pubOk := fun _ => true, topicPrefix := [], now := 0 }

/-- A cycle environment whose Redis read throws. -/
def envThrow : MqttPushService.Env :=
  { redisReady := true, mqttReady := true, sensorRead := .error ()
  , pubOk := fun _ => true, topicPrefix := [], now := 0 }

/-- Retry options on attempt 3 with no error and little elapsed time. -/
def optW : RedisService.RetryOptions :=
  { errCode := none, total_retry_time := 0, attempt := 3 }

/-- A cycle environment with one valid reading where every publish fails. -/
def envAllFail : MqttPushService.Env :=
  { redisReady := true, mqttReady := true, sensorRead := .ok [rawS1 1]
  , pubOk := fun _ => false, topicPrefix := [], now := 5 }

/-! Helper lemmas (shared; not claim theorems). -/

/-- A filter has length zero exactly when no element satisfies the
predicate. -/
theorem filter_length_zero_iff_any_false {α : Type} (p : α → Bool)
    (l : List α) : ((l.filter p).length = 0) = (l.any p = false) := by
  induction l with
  | nil => simp
  | cons a t ih => cases h : p a <;> simp [List.filter_cons, h, ih]

/-- Everything stored in the processor's `sensorTypes` table differs from
the `'未知類型'` default. -/
theorem sensorTypes_lookup_ne_unknownType {c : Nat} {n : JStr}
    (h : SensorProcessor.sensorTypes.lookup c = some n) :
    n ≠ SensorProcessor.unknownType := by
  simp only [SensorProcessor.sensorTypes, List.lookup] at h
  repeat' split at h
  all_goals first
  | exact Option.noConfusion h
  | (injection h with h2
     subst h2
     decide)

/-- Case analysis of `determineSensorStatus`, as the priority order of its
ifs. -/
theorem determineSensorStatus_cases
    (value : List SensorProcessor.ProcessedValue) (name DES : JStr) :
    (SensorProcessor.determineSensorStatus value name DES
        = SensorProcessor.SensorStatus.active ↔
      value.any (fun v => v.range_valid) = true ∧ name ≠ [] ∧ DES ≠ []) ∧
    (value = [] →
      SensorProcessor.determineSensorStatus value name DES
        = SensorProcessor.SensorStatus.no_values) ∧
    (value ≠ [] → value.any (fun v => v.range_valid) = false →
      SensorProcessor.determineSensorStatus value name DES
        = SensorProcessor.SensorStatus.invalid_range) ∧
    (value.any (fun v => v.range_valid) = true → (name = [] ∨ DES = []) →
      SensorProcessor.determineSensorStatus value name DES
        = SensorProcessor.SensorStatus.incomplete_info) := by
  refine ⟨?_, ?_, ?_, ?_⟩ <;>
    (unfold SensorProcessor.determineSensorStatus
     split_ifs with h1 h2 h3 <;>
       simp_all [filter_length_zero_iff_any_false, List.length_eq_zero] <;>
       tauto)

/-! Claim C2. -/

/-- C2, counterexample: a reading whose `SN` is the non-empty string
`"S1"` and whose `ADDRESS` is the number `0` — both required fields are
present, yet `processSingleSensor` returns `null`, because `!sensor.ADDRESS`
treats the number `0` as missing. -/
theorem processSingleSensor_address_zero_null :
    sensorAddr0.SN = some [83, 49] ∧ sensorAddr0.ADDRESS = some 0 ∧
    SensorProcessor.processSingleSensor sensorAddr0 = none :=
  ⟨rfl, rfl, rfl⟩

/-- C2, amended: `processSingleSensor` returns non-null exactly when `SN`
is a present non-empty string and `ADDRESS` is a present non-zero number
(JavaScript truthiness); in particular any reading missing either field
yields `null`, and a numeric address equal to `0` also yields `null`. -/
theorem processSingleSensor_some_iff_truthy
    (sensor : SensorProcessor.RawSensor) :
    (SensorProcessor.processSingleSensor sensor).isSome
      = (SensorProcessor.truthyStr sensor.SN
          && SensorProcessor.truthyInt sensor.ADDRESS) := by
  rw [SensorProcessor.processSingleSensor]
  cases h : SensorProcessor.truthyStr sensor.SN
      && SensorProcessor.truthyInt sensor.ADDRESS <;>
    simp [h]

/-! Claim C3. -/

/-- C3: a value produced by `processValueArray` has `range_valid = true`
exactly when both `min` and `max` parsed to numbers and `min < max`;
whenever either bound is absent or non-numeric, or `min = max`, the flag is
false. -/
theorem range_valid_iff_bounds_present_and_ordered
    (v : SensorProcessor.RawValue) :
    (SensorProcessor.processValue v).range_valid = true ↔
      ∃ a b, (SensorProcessor.processValue v).min = some a ∧
             (SensorProcessor.processValue v).max = some b ∧ a < b := by
  show SensorProcessor.validateRange (SensorProcessor.parseNumber v.min)
        (SensorProcessor.parseNumber v.max) = true ↔
      ∃ a b, SensorProcessor.parseNumber v.min = some a ∧
             SensorProcessor.parseNumber v.max = some b ∧ a < b
  cases hm : SensorProcessor.parseNumber v.min <;>
    cases hx : SensorProcessor.parseNumber v.max <;>
    simp [SensorProcessor.validateRange, hm, hx]

/-! Claim C4. -/

/-- C4: a reading accepted by `processSingleSensor` has `status = active`
exactly when at least one of its values has a valid range and both `name`
and `DES` are non-empty; otherwise the status is the first failing
condition in priority order: `no_values` when the value list is empty, else
`invalid_range` when no value has a valid range, else `incomplete_info`
when `name` or `DES` is empty. -/
theorem sensor_status_spec (sensor : SensorProcessor.RawSensor)
    (ps : SensorProcessor.ProcessedSensor)
    (h : SensorProcessor.processSingleSensor sensor = some ps) :
    (ps.status = SensorProcessor.SensorStatus.active ↔
      ps.value.any (fun v => v.range_valid) = true ∧
      ps.name ≠ [] ∧ ps.DES ≠ []) ∧
    (ps.value = [] → ps.status = SensorProcessor.SensorStatus.no_values) ∧
    (ps.value ≠ [] → ps.value.any (fun v => v.range_valid) = false →
      ps.status = SensorProcessor.SensorStatus.invalid_range) ∧
    (ps.value.any (fun v => v.range_valid) = true →
      (ps.name = [] ∨ ps.DES = []) →
      ps.status = SensorProcessor.SensorStatus.incomplete_info) := by
  rw [SensorProcessor.processSingleSensor] at h
  split at h
  · exact Option.noConfusion h
  · injection h with h2
    subst h2
    exact determineSensorStatus_cases _ _ _

/-- C4, witness: on a concrete accepted reading with no values the status
is `no_values`, by `sensor_status_spec`. -/
theorem sensor_status_spec_witness :
    SensorProcessor.processSingleSensor wSensor = some wPS ∧
    wPS.status = SensorProcessor.SensorStatus.no_values :=
  ⟨rfl, (sensor_status_spec wSensor wPS rfl).2.1 rfl⟩

/-! Claim C5. -/

/-- C5, counterexample: `decodeUTF8` is not idempotent.  On the input
`"\x5Cx41"` the first decode replaces the escape `\x5C` by a backslash,
producing the string `"\x41"`, which itself contains the escape pattern;
a second decode turns it into `"A"`. -/
theorem decodeUTF8_not_idempotent :
    SensorProcessor.decodeUTF8 cex5 = [92, 120, 52, 49] ∧
    SensorProcessor.decodeUTF8 (SensorProcessor.decodeUTF8 cex5) = [65] ∧
    SensorProcessor.decodeUTF8 (SensorProcessor.decodeUTF8 cex5)
      ≠ SensorProcessor.decodeUTF8 cex5 := by
  decide

/-- C5, amended: a string containing no legacy escape pattern is returned
unchanged, so decoding is idempotent on every input whose decode result is
free of the pattern — but not in general, since a decode can create a new
escape pattern. -/
theorem decodeUTF8_noop_without_pattern (s : JStr)
    (h : SensorProcessor.hasEscapePattern s = false) :
    SensorProcessor.decodeUTF8 s = s ∧
    SensorProcessor.decodeUTF8 (SensorProcessor.decodeUTF8 s)
      = SensorProcessor.decodeUTF8 s := by
  have h1 : SensorProcessor.decodeUTF8 s = s := by
    simp only [SensorProcessor.decodeUTF8, h]
    split <;> simp_all
  exact ⟨h1, by rw [h1]; exact h1⟩

/-- C5, witness: the pattern-free string `"ab"` decodes to itself. -/
theorem decodeUTF8_noop_without_pattern_witness :
    SensorProcessor.decodeUTF8 [97, 98] = [97, 98] ∧
    SensorProcessor.decodeUTF8 (SensorProcessor.decodeUTF8 [97, 98])
      = SensorProcessor.decodeUTF8 [97, 98] :=
  decodeUTF8_noop_without_pattern [97, 98] (by decide)

/-! Claim C6. -/

/-- C6, counterexample: the catalog in utils/unit.js does contain the code
`'I'` (照度), but `processValueArray` looks types up in the processor's own
six-entry `sensorTypes` table, so a value with code `'I'` still gets the
`'未知類型'` unknown default. -/
theorem type_unknown_despite_catalog_code :
    (SensorProcessor.processValue valueCodeI).type
      = SensorProcessor.unknownType ∧
    UnitCatalog.getUnitByCode 73 = some (73, [29031, 24230]) :=
  ⟨rfl, rfl⟩

/-- C6, amended: the `type` of a processed value is the name found for its
code in the processor's own `sensorTypes` table (codes `A B C S R L`), and
it equals the `'未知類型'` default exactly when the code is not in that
table — not the fuller utils/unit.js catalog. -/
theorem type_from_sensorTypes_table (v : SensorProcessor.RawValue) :
    (SensorProcessor.processValue v).type
      = (SensorProcessor.sensorTypesLookup v.code).getD
          SensorProcessor.unknownType ∧
    ((SensorProcessor.processValue v).type = SensorProcessor.unknownType ↔
      SensorProcessor.sensorTypesLookup v.code = none) := by
  have ht : (SensorProcessor.processValue v).type
      = (SensorProcessor.sensorTypesLookup v.code).getD
          SensorProcessor.unknownType := rfl
  refine ⟨ht, ?_⟩
  rw [ht]
  cases h : SensorProcessor.sensorTypesLookup v.code with
  | none => simp
  | some n =>
    have hn : n ≠ SensorProcessor.unknownType := by
      cases hc : v.code with
      | none => rw [hc] at h; exact Option.noConfusion h
      | some c =>
        rw [hc] at h
        exact sensorTypes_lookup_ne_unknownType h
    simp [hn]

/-! Claim C1. -/

/-- C1, counterexample: a poll cycle holding two readings of the single
device `"S1"` makes two publish calls, not one merged envelope — the poll
cycle invokes `publishBatchSensorData`, which publishes once per reading. -/
theorem poll_cycle_two_messages_for_one_device :
    (rawS1 1).SN = some [83, 49] ∧ (rawS1 2).SN = some [83, 49] ∧
    (MqttPushService.processSensorData envTwoReadings true stats0).publishCalls
      = 2 ∧
    (MqttPushService.processSensorData envTwoReadings true stats0).publishCalls
      ≠ 1 := by
  refine ⟨rfl, rfl, rfl, ?_⟩
  decide

/-- C1, amended: the batch publish invoked by the poll cycle
(`publishBatchSensorData`) publishes one message per reading — N messages
for N readings — while the single-envelope merge exists only in
`publishBatchSensorDataWithDeviceName`, which produces exactly one message
carrying all N readings as groups and which the poll cycle does not
invoke. -/
theorem publishBatch_message_counts (pfx deviceName : JStr)
    (items : List SensorProcessor.FormattedSensor) :
    (MqttService.publishBatchSensorData pfx items).length = items.length ∧
    (MqttService.publishBatchSensorDataWithDeviceName pfx deviceName
        items).length = 1 ∧
    (MqttService.publishBatchSensorDataWithDeviceName pfx deviceName
        items).map (fun call => call.2.sensors) = [items] := by
  refine ⟨?_, rfl, rfl⟩
  simp [MqttService.publishBatchSensorData]

/-! Claim C7. -/

/-- C7: whenever the store connection reports not-ready, one execution of
`processSensorData` makes zero publish calls, does not throw, and leaves
the stats (totalPublished, lastPublishTime, errors) exactly unchanged. -/
theorem poll_skipped_when_redis_not_ready (env : MqttPushService.Env)
    (isRunning : Bool) (stats : MqttPushService.Stats)
    (h : env.redisReady = false) :
    MqttPushService.processSensorData env isRunning stats
      = ⟨stats, 0, false⟩ := by
  rw [MqttPushService.processSensorData]
  cases isRunning <;> simp [h]

/-- C7, witness: the concrete not-ready environment leaves the zero stats
untouched. -/
theorem poll_skipped_when_redis_not_ready_witness :
    MqttPushService.processSensorData envNotReady true stats0
      = ⟨stats0, 0, false⟩ :=
  poll_skipped_when_redis_not_ready envNotReady true stats0 rfl

/-! Claim C8. -/

/-- C8: the scheduled tick handler catches every error at the cycle
boundary: when `processSensorData` rethrows, the handler increments
`errors` and returns normally; when it does not, the handler returns its
stats unchanged; and in every case the scheduler simply continues with the
remaining ticks. -/
theorem poll_tick_survives_cycle_errors (env : MqttPushService.Env)
    (isRunning : Bool) (stats : MqttPushService.Stats) :
    ((MqttPushService.processSensorData env isRunning stats).threw = true →
      MqttPushService.pollTick env isRunning stats
        = { (MqttPushService.processSensorData env isRunning stats).stats with
            errors := (MqttPushService.processSensorData env isRunning
                stats).stats.errors + 1 }) ∧
    ((MqttPushService.processSensorData env isRunning stats).threw = false →
      MqttPushService.pollTick env isRunning stats
        = (MqttPushService.processSensorData env isRunning stats).stats) ∧
    (∀ future : List MqttPushService.Env,
      MqttPushService.runTicks (env :: future) isRunning stats
        = MqttPushService.runTicks future isRunning
            (MqttPushService.pollTick env isRunning stats)) := by
  refine ⟨?_, ?_, fun _ => rfl⟩ <;>
    (intro h
     simp [MqttPushService.pollTick, h])

/-- C8, witness: on the concrete environment whose Redis read throws, the
tick handler returns normally with the error counted. -/
theorem poll_tick_survives_cycle_errors_witness :
    MqttPushService.pollTick envThrow true stats0
      = { (MqttPushService.processSensorData envThrow true stats0).stats with
          errors := (MqttPushService.processSensorData envThrow true
              stats0).stats.errors + 1 } :=
  (poll_tick_survives_cycle_errors envThrow true stats0).1 rfl

/-! Claim C9. -/

/-- C9: the Redis `retry_strategy` halts (stops scheduling retries) in
exactly three cases — a connection-refused error, cumulative retry time
over one hour, attempt count over 10 — and in every other case returns the
delay `min(attempt * 100, 3000)`.  The first two halts return an `Error`
object; the third returns `undefined`, which equally stops the retrying
and fails the pending commands. -/
theorem retry_strategy_halts_iff (options : RedisService.RetryOptions) :
    ((RedisService.retry_strategy options).halts = true ↔
      (options.errCode = some RedisService.econnrefused ∨
       1000 * 60 * 60 < options.total_retry_time ∨
       10 < options.attempt)) ∧
    ((options.errCode ≠ some RedisService.econnrefused ∧
      options.total_retry_time ≤ 1000 * 60 * 60 ∧ options.attempt ≤ 10) →
      RedisService.retry_strategy options
        = .retryAfter (min (options.attempt * 100) 3000)) := by
  unfold RedisService.retry_strategy
  constructor
  · split_ifs with h1 h2 h3 <;>
      simp_all [RedisService.RetryDecision.halts]
  · rintro ⟨n1, n2, n3⟩
    split_ifs with h1 h2 h3
    · exact absurd h1 n1
    · omega
    · omega
    · rfl

/-- C9, witness: on attempt 3 with no error and no elapsed time the
strategy retries after 300 ms. -/
theorem retry_strategy_halts_iff_witness :
    RedisService.retry_strategy optW
      = RedisService.RetryDecision.retryAfter 300 :=
  (retry_strategy_halts_iff optW).2 ⟨by decide, by decide, by decide⟩

/-! Claim C10. -/

/-- Filtering a replicate of `false` through negation keeps everything. -/
theorem filter_bang_replicate_false (n : Nat) :
    (List.replicate n false).filter (fun r => !r) = List.replicate n false := by
  induction n with
  | zero => rfl
  | succ k ih => simp [List.replicate_succ, List.filter_cons, ih]

/-- C10: a poll cycle that reaches the publish step adds the length of the
processed batch to `totalPublished` no matter how many publishes fail, and
when every publish fails it also adds that same length to `errors`. -/
theorem updateStats_counts_attempts_and_failures
    (env : MqttPushService.Env) (stats : MqttPushService.Stats)
    (raw : List SensorProcessor.RawSensor)
    (h1 : env.redisReady = true) (h2 : env.mqttReady = true)
    (h3 : env.sensorRead = .ok raw)
    (h4 : SensorProcessor.processAndFormat raw ≠ []) :
    ((MqttPushService.processSensorData env true stats).stats.totalPublished
        = stats.totalPublished
          + (SensorProcessor.processAndFormat raw).length) ∧
    ((∀ i, env.pubOk i = false) →
      (MqttPushService.processSensorData env true stats).stats.errors
        = stats.errors + (SensorProcessor.processAndFormat raw).length) := by
  have hraw : raw.isEmpty = false := by
    cases raw with
    | nil => exact absurd rfl h4
    | cons a t => rfl
  have hproc : (SensorProcessor.processAndFormat raw).isEmpty = false := by
    cases hpf : SensorProcessor.processAndFormat raw with
    | nil => exact absurd hpf h4
    | cons a t => rfl
  have hrun : MqttPushService.processSensorData env true stats
      = ⟨MqttPushService.updateStats stats env.now
            (SensorProcessor.processAndFormat raw).length
            (MqttPushService.runBatchPublish env.pubOk
              (SensorProcessor.processAndFormat raw).length),
         (SensorProcessor.processAndFormat raw).length, false⟩ := by
    rw [MqttPushService.processSensorData]
    simp [h1, h2, h3, hraw, hproc, MqttService.publishBatchSensorData]
  rw [hrun]
  constructor
  · rfl
  · intro hfail
    have hres : MqttPushService.runBatchPublish env.pubOk
        (SensorProcessor.processAndFormat raw).length
        = List.replicate (SensorProcessor.processAndFormat raw).length
            false := by
      unfold MqttPushService.runBatchPublish
      refine List.eq_replicate_iff.mpr ⟨by simp, ?_⟩
      intro b hb
      rcases List.mem_map.mp hb with ⟨i, _, hib⟩
      rw [← hib]
      exact hfail i
    have hN : 0 < (SensorProcessor.processAndFormat raw).length :=
      List.length_pos.mpr h4
    simp [MqttPushService.updateStats, hres, filter_bang_replicate_false,
      List.length_replicate, hN]

/-- C10, witness: one reading where the single publish fails — the cycle
raises `totalPublished` by 1 and `errors` by 1. -/
theorem updateStats_counts_attempts_and_failures_witness :
    (MqttPushService.processSensorData envAllFail true
        stats0).stats.totalPublished = stats0.totalPublished + 1 ∧
    (MqttPushService.processSensorData envAllFail true stats0).stats.errors
      = stats0.errors + 1 := by
  have h := updateStats_counts_attempts_and_failures envAllFail stats0
    [rawS1 1] rfl rfl rfl (by decide)
  exact ⟨h.1, h.2 (fun i => rfl)⟩
